import Mathlib

/-!
Verification of the authentication and session-trust subsystem of the
`jrnl` note-taking service (files `src/auth/oidc.rs`, `src/auth/mod.rs`,
`src/auth/oauth.rs`), as a shallow embedding in Lean 4.

Remote calls (token exchange, ID-token verification, user-info fetch,
introspection) are modelled as explicit environment parameters holding the
outcome of each call; the in-memory maps (pending-session store,
introspection cache) are modelled as association lists with
overwrite-on-insert and remove-all-on-delete, matching `HashMap`
observational semantics; the wall clock is an explicit `now : Int`
(unix timestamp) parameter. A reachable `unwrap`/`expect` panic in the
source is modelled explicitly by the `panic` constructor of the outcome
type rather than hidden.
-/

namespace Jrnl

/-- Embeds `AuthenticatedUser` of `src/auth/oidc.rs`: expiry is a unix
timestamp (`i64`, embedded as `Int`), plus subject and username. -/
structure AuthenticatedUser where
  expiry : Int
  subject : String
  username : String
deriving DecidableEq, Repr

/-- Embeds `AuthenticatedUser::is_valid`: `OffsetDateTime::now_utc().unix_timestamp() < self.expiry`,
with the wall clock made an explicit parameter `now`. -/
def AuthenticatedUser.is_valid (u : AuthenticatedUser) (now : Int) : Bool :=
  now < u.expiry

/-- The introspection cache `HashMap<RawAccessToken, AuthenticatedUser>`,
as an association list keyed by the raw access-token secret. -/
abbrev Cache := List (String × AuthenticatedUser)

/-- `HashMap::insert` semantics: overwrite any existing binding for the key. -/
def cacheInsert (c : Cache) (k : String) (v : AuthenticatedUser) : Cache :=
  (k, v) :: c.filter (fun p => p.fst ≠ k)

/-- Embeds the body of the provider's introspection response (RFC 7662 as
consumed by the `openidconnect` crate accessors used in the source):
`active()`, `sub()`, `username()`, `exp()` (the latter three optional). -/
structure IntrospectionResponse where
  active : Bool
  sub : Option String
  username : Option String
  exp : Option Int
deriving DecidableEq, Repr

/-- Outcome of `AuthClient::introspect`: either a Rust panic (reached by
`r.exp().unwrap()` in the source) or a normal return carrying the
`Option<AuthenticatedUser>` result together with the cache contents after
the call. -/
inductive IntrospectOutcome where
  | panic
  | ok (result : Option AuthenticatedUser) (cache : Cache)
deriving DecidableEq, Repr

/-- Embeds the network half of `AuthClient::introspect` (`src/auth/oidc.rs`
lines 242-262): the introspection request result `net` is `Except.error` on
transport failure (in which case `.unwrap_or_default()` yields `None` and
the cache is untouched) and `Except.ok r` on a response. On a response the
closure runs under the write lock: when `r.active()` and both subject and
username are present it inserts a fresh entry whose expiry is
`r.exp().unwrap().timestamp()` — the `unwrap` panics when `exp` is absent —
and finally returns `cache.get(token.secret()).cloned()`. -/
def introspectRemote (cache : Cache) (token : String)
    (net : Except String IntrospectionResponse) : IntrospectOutcome :=
  match net with
  | .error _ => .ok none cache
  | .ok r =>
    if r.active then
      match r.sub, r.username with
      | some subject, some username =>
        match r.exp with
        | some e =>
          let cache1 := cacheInsert cache token ⟨e, subject, username⟩
          .ok (cache1.lookup token) cache1
        | none => .panic
      | _, _ => .ok (cache.lookup token) cache
    else .ok (cache.lookup token) cache

/-- Embeds `AuthClient::introspect` (`src/auth/oidc.rs` lines 230-262): the
read path first consults the cache and returns a hit that `is_valid`;
otherwise it falls through to the remote introspection call. (The
`.expect(..)` on `self.client.introspect(token)` cannot fire because
`AuthClient::new` always sets the introspection URI, so it is not
modelled.) -/
def introspect (now : Int) (cache : Cache) (token : String)
    (net : Except String IntrospectionResponse) : IntrospectOutcome :=
  match cache.lookup token with
  | some data =>
    if data.is_valid now then .ok (some data) cache
    else introspectRemote cache token net
  | none => introspectRemote cache token net

/-- A concrete cached user whose expiry (5) is already in the past at
`now = 10`. -/
def staleUser : AuthenticatedUser := ⟨5, "alice", "alice"⟩

/-- Embeds `AuthConfig` of `src/auth/oidc.rs`; URLs, client id/secret and
scopes are opaque strings here. Only `required_groups` is consulted by
`authenticate`. -/
structure AuthConfig where
  issuer_url : String
  redirect_url : String
  client_id : String
  client_secret : Option String
  scopes : List String
  required_groups : List String
deriving Repr

/-- The per-attempt secrets stored in the pending-session map
`HashMap<AuthSession, (CsrfToken, Nonce, PkceCodeVerifier)>`. -/
structure PendingEntry where
  csrf : String
  nonce : String
  pkce_verifier : String
deriving DecidableEq, Repr

/-- The pending-session store, keyed by the opaque `AuthSession` id. -/
abbrev PendingMap := List (String × PendingEntry)

/-- `HashMap::remove` semantics on the pending map: every binding for the
key is gone afterwards. -/
def pendingRemove (m : PendingMap) (s : String) : PendingMap :=
  m.filter (fun p => p.fst != s)

/-- The ID-token claims accessed by `authenticate`:
`access_token_hash()` (optional) and `subject()`. -/
structure IdClaims where
  access_token_hash : Option String
  subject : String
deriving DecidableEq, Repr

/-- The token-endpoint response as consumed by `authenticate`:
`access_token()` plus the optional `extra_fields().id_token()`, the
latter kept opaque (its verification is an environment call). -/
structure TokenResponse where
  access_token : String
  id_token : Option String
deriving DecidableEq, Repr

/-- The user-info claims consumed by `authenticate`: the
provider-specific `GroupClaim` plus the standard claims kept here as
subject and username. -/
structure UserInfo where
  subject : String
  username : String
  groups : List String
deriving DecidableEq, Repr

/-- Embeds `AuthData` of `src/auth/oidc.rs`. -/
structure AuthData where
  access_token : String
  user : UserInfo
deriving DecidableEq, Repr

/-- Outcomes of the remote/cryptographic calls made by `authenticate`,
one field per call site in `src/auth/oidc.rs` lines 136-211:
code exchange (given code and PKCE verifier), ID-token claim
verification (given the token and the stored nonce), signing-algorithm
retrieval, access-token hashing (given token and algorithm), user-info
request construction (given access token and subject, yielding an opaque
request), and the user-info fetch itself. -/
structure AuthEnv where
  exchange_code : String → String → Except String TokenResponse
  id_token_claims : String → String → Except String IdClaims
  signing_alg : String → Except String String
  hash_access_token : String → String → Except String String
  user_info_request : String → String → Except String String
  fetch_user_info : String → Except String UserInfo

/-- Result of one `authenticate` call: the returned
`Option<AuthData>`, the pending-session map after the call, and whether
the token-exchange request was issued (the observable side effect claim
C2 is about). -/
structure AuthOutcome where
  result : Option AuthData
  pending : PendingMap
  exchange_attempted : Bool
deriving Repr

/-- Embeds the access-token-hash block of `authenticate`
(`src/auth/oidc.rs` lines 168-191): when the ID-token claims carry an
`access_token_hash`, retrieve the signing algorithm, recompute the hash
of the issued access token and require exact equality; any retrieval or
hashing failure, or a mismatch, fails; absence of the claim is
accepted. -/
def hashBindingOk (env : AuthEnv) (idToken accessToken : String)
    (idClaims : IdClaims) : Bool :=
  match idClaims.access_token_hash with
  | none => true
  | some expectedHash =>
    match env.signing_alg idToken with
    | .error _ => false
    | .ok alg =>
      match env.hash_access_token accessToken alg with
      | .error _ => false
      | .ok actualHash => expectedHash == actualHash

/-- Embeds `AuthClient::authenticate` (`src/auth/oidc.rs` lines 119-228),
sequential fail-closed checks in source order: consume the pending
session (`.remove(&session)?`); compare the returned CSRF state with the
stored one; exchange the code with the stored PKCE verifier; require an
ID token; verify its claims against the stored nonce; check the
access-token hash binding (`hashBindingOk`); build and issue the
user-info request; require every configured group to be contained in the
user-info group claim; on success return the access token and user
claims. -/
def authenticate (cfg : AuthConfig) (env : AuthEnv) (pending : PendingMap)
    (session code csrf_state : String) : AuthOutcome :=
  match pending.lookup session with
  | none => ⟨none, pendingRemove pending session, false⟩
  | some entry =>
    if csrf_state ≠ entry.csrf then ⟨none, pendingRemove pending session, false⟩
    else
      match env.exchange_code code entry.pkce_verifier with
      | .error _ => ⟨none, pendingRemove pending session, true⟩
      | .ok tokens =>
        match tokens.id_token with
        | none => ⟨none, pendingRemove pending session, true⟩
        | some idToken =>
          match env.id_token_claims idToken entry.nonce with
          | .error _ => ⟨none, pendingRemove pending session, true⟩
          | .ok idClaims =>
            if !hashBindingOk env idToken tokens.access_token idClaims then
              ⟨none, pendingRemove pending session, true⟩
            else
              match env.user_info_request tokens.access_token idClaims.subject with
              | .error _ => ⟨none, pendingRemove pending session, true⟩
              | .ok req =>
                match env.fetch_user_info req with
                | .error _ => ⟨none, pendingRemove pending session, true⟩
                | .ok userInfo =>
                  match cfg.required_groups.find?
                      (fun group => !(userInfo.groups.contains group)) with
                  | some _ => ⟨none, pendingRemove pending session, true⟩
                  | none =>
                    ⟨some ⟨tokens.access_token, userInfo⟩,
                      pendingRemove pending session, true⟩

/-- The success condition of `complete_login` as the specification words
it: the pending session exists, the returned CSRF token matches the
stored one, the code exchange succeeds, the response contains an ID
token whose claims verify against the stored nonce, the access-token
hash — when the claim is present — matches the recomputed hash, the
user-info request builds and the fetch succeeds, and every configured
required group appears in the user's group claim. -/
def complete_login_spec (cfg : AuthConfig) (env : AuthEnv)
    (pending : PendingMap) (session code csrf_state : String) : Prop :=
  ∃ entry tokens idToken idClaims req userInfo,
    pending.lookup session = some entry
    ∧ csrf_state = entry.csrf
    ∧ env.exchange_code code entry.pkce_verifier = .ok tokens
    ∧ tokens.id_token = some idToken
    ∧ env.id_token_claims idToken entry.nonce = .ok idClaims
    ∧ (∀ expectedHash, idClaims.access_token_hash = some expectedHash →
        ∃ alg, env.signing_alg idToken = .ok alg
          ∧ env.hash_access_token tokens.access_token alg = .ok expectedHash)
    ∧ env.user_info_request tokens.access_token idClaims.subject = .ok req
    ∧ env.fetch_user_info req = .ok userInfo
    ∧ (∀ group ∈ cfg.required_groups, group ∈ userInfo.groups)

/-- A concrete environment in which every remote call succeeds and all
checks pass, for witnesses. -/
def envOk : AuthEnv where
  exchange_code := fun _ _ => .ok ⟨"atok", some "idtok"⟩
  id_token_claims := fun _ _ => .ok ⟨some "hash0", "subj"⟩
  signing_alg := fun _ => .ok "RS256"
  hash_access_token := fun _ _ => .ok "hash0"
  user_info_request := fun _ _ => .ok "req0"
  fetch_user_info := fun _ => .ok ⟨"subj", "alice", ["users"]⟩

/-- A concrete configuration requiring membership of the group `users`. -/
def cfg0 : AuthConfig :=
  ⟨"https://issuer", "https://app/callback", "client", none, ["openid"], ["users"]⟩

/-- A concrete pending store holding one session `s0`. -/
def pending0 : PendingMap := [("s0", ⟨"csrf0", "nonce0", "pkce0"⟩)]

/-- JSON values as relevant to the cookie codec: `serde_json` enum
encodings are single-key objects or plain strings, so the embedded value
universe is null, numbers, strings, and single-key objects. -/
inductive Json where
  | null
  | num (n : Int)
  | str (s : String)
  | obj (key : String) (val : Json)
deriving DecidableEq, Repr

/-- Embeds the `AuthState` enum of `src/auth/mod.rs`: `Pending` holds
the `AuthSession` id, `Authenticated` holds the access-token secret,
and `Unauthenticated` is the `#[serde(other)]` catch-all unit variant. -/
inductive AuthState where
  | Pending (session : String)
  | Authenticated (token : String)
  | Unauthenticated
deriving DecidableEq, Repr

/-- Serde serialization of `AuthState` (externally tagged): a newtype
variant becomes a single-key object holding its content, the unit
variant becomes its name as a plain string. -/
def serializeAuthState : AuthState → Json
  | .Pending s => .obj "Pending" (.str s)
  | .Authenticated t => .obj "Authenticated" (.str t)
  | .Unauthenticated => .str "Unauthenticated"

/-- Serde deserialization of `AuthState` (externally tagged with
`#[serde(other)]` on `Unauthenticated`): a single-key object whose key
names a newtype variant requires a string content; any other key is an
unrecognized tag, accepted as the catch-all unit variant on null
content; a plain string naming a newtype variant is a content-less
newtype (an error), any other string is an unrecognized tag mapped to
the catch-all; non-enum-shaped values are errors (`none`). -/
def deserializeAuthState : Json → Option AuthState
  | .obj k v =>
    if k = "Pending" then
      match v with
      | .str s => some (.Pending s)
      | _ => none
    else if k = "Authenticated" then
      match v with
      | .str t => some (.Authenticated t)
      | _ => none
    else
      match v with
      | .null => some .Unauthenticated
      | _ => none
  | .str s =>
    if s = "Pending" ∨ s = "Authenticated" then none
    else some .Unauthenticated
  | _ => none

/-- The `SameSite` cookie attribute values used by the source. -/
inductive SameSite where
  | Lax
  | Strict
deriving DecidableEq, Repr

/-- A cookie as built by the source: value is `none` for content that
does not even parse as JSON, `some j` for JSON content; `max_age` is in
seconds. -/
structure Cookie where
  name : String
  value : Option Json
  max_age : Int
  same_site : SameSite
  http_only : Bool
deriving DecidableEq, Repr

/-- The cookie jar. -/
abbrev Jar := List Cookie

/-- The name of the auth cookie (`AUTH_COOKIE` in `src/auth/mod.rs`). -/
def authCookieName : String := "auth"

/-- The name of the user cookie (`USER_COOKIE` in `src/auth/mod.rs`). -/
def userCookieName : String := "user"

/-- `CookieJar::get` by name. -/
def jarGet (jar : Jar) (n : String) : Option Cookie :=
  jar.find? (fun c => c.name == n)

/-- `CookieJar::add`: replaces any same-named cookie. -/
def jarAdd (jar : Jar) (c : Cookie) : Jar :=
  c :: jar.filter (fun x => x.name != c.name)

/-- The core of `AuthState::from_jar` over the auth-cookie content:
outer `none` is an absent cookie, `some none` is present-but-unparseable
content, `some (some j)` is parsed JSON `j`; deserialization failure and
absence alike collapse to `Unauthenticated` via
`.ok()`/`.flatten()`/`.unwrap_or(AuthState::Unauthenticated)`. -/
def authStateFromCookie : Option (Option Json) → AuthState
  | none => .Unauthenticated
  | some none => .Unauthenticated
  | some (some j) => (deserializeAuthState j).getD .Unauthenticated

/-- Embeds `AuthState::from_jar` (`src/auth/mod.rs` lines 136-141). -/
def AuthState.from_jar (jar : Jar) : AuthState :=
  authStateFromCookie ((jarGet jar authCookieName).map (fun c => c.value))

/-- Embeds `AuthState::validity_period` (`src/auth/mod.rs` lines
162-168), in seconds: five minutes, one day, zero. -/
def AuthState.validity_period : AuthState → Int
  | .Pending _ => 5 * 60
  | .Authenticated _ => 86400
  | .Unauthenticated => 0

/-- Embeds `AuthState::write_to_jar` (`src/auth/mod.rs` lines 143-160):
the pending cookie is `SameSite::Lax` so the provider's redirect back to
the callback still carries it, everything else `Strict`; the cookie is
http-only with the state's validity period as its max-age. -/
def AuthState.write_to_jar (st : AuthState) (jar : Jar) : Jar :=
  jarAdd jar
    ⟨authCookieName, some (serializeAuthState st), st.validity_period,
      (match st with
        | .Pending _ => SameSite.Lax
        | _ => SameSite.Strict),
      true⟩

/-- Stand-in for the serde serialization of the user's `StandardClaims`
carried by the user cookie; no claim depends on its shape, so it is
abstracted to an object holding the subject. -/
def serializeUserClaims (u : UserInfo) : Json :=
  .obj "sub" (.str u.subject)

/-- Embeds `build_user_cookie` (`src/auth/mod.rs` lines 114-124): one
week max-age, `SameSite::Strict`, not http-only. -/
def build_user_cookie (data : AuthData) : Cookie :=
  ⟨userCookieName, some (serializeUserClaims data.user), 604800,
    SameSite.Strict, false⟩

/-- Result of the callback handler: the outgoing cookie jar, the
redirect target, and the pending-session store afterwards. -/
structure CallbackOut where
  jar : Jar
  redirect : String
  pending : PendingMap
deriving Repr

/-- Embeds the `callback` handler (`src/auth/mod.rs` lines 66-87): when
the incoming auth cookie decodes to `Pending(session)` and
`authenticate` succeeds, write the `Authenticated` state plus the user
cookie and redirect to `./success`; in every other case return the jar
unchanged and redirect to `./failed`. -/
def callback (cfg : AuthConfig) (env : AuthEnv) (pending : PendingMap)
    (jar : Jar) (code state : String) : CallbackOut :=
  match AuthState.from_jar jar with
  | .Pending session =>
    match (authenticate cfg env pending session code state).result with
    | some auth =>
      ⟨jarAdd ((AuthState.Authenticated auth.access_token).write_to_jar jar)
          (build_user_cookie auth),
        "./success",
        (authenticate cfg env pending session code state).pending⟩
    | none => ⟨jar, "./failed",
        (authenticate cfg env pending session code state).pending⟩
  | _ => ⟨jar, "./failed", pending⟩

/-- An environment identical to `envOk` except that the code exchange
fails at the provider. -/
def envFail : AuthEnv :=
  { envOk with exchange_code := fun _ _ => .error "exchange failed" }

/-- A concrete jar holding a `Pending` auth cookie for session `s0`. -/
def jar0 : Jar :=
  [⟨authCookieName, some (serializeAuthState (.Pending "s0")), 300,
    SameSite.Lax, true⟩]

/-- A concrete jar whose auth cookie holds JSON of an unrecognized
shape (a bare number). -/
def jarBad : Jar :=
  [⟨authCookieName, some (Json.num 5), 300, SameSite.Lax, true⟩]

/-- The (single) cookie of `jarBad`. -/
def badCookie : Cookie :=
  ⟨authCookieName, some (Json.num 5), 300, SameSite.Lax, true⟩

/-- Embeds `DiscoveryError` of the `openidconnect` crate as matched by
`OAuthProviderMetadata` discovery in `src/auth/oauth.rs`. -/
inductive DiscoveryError where
  | UrlParse
  | Request (e : String)
  | Response (status : Nat) (msg : String)
  | Parse
  | Validation (msg : String)
deriving DecidableEq, Repr

/-- Embeds `OAuthProviderMetadata` of `src/auth/oauth.rs`; URLs are
opaque strings, compared by string equality exactly as the derived
`PartialEq` on the underlying URL strings does. -/
structure OAuthProviderMetadata where
  issuer : String
  introspection_endpoint : String
  revocation_endpoint : String
deriving DecidableEq, Repr

/-- An HTTP discovery response: the status code, and the body abstracted
to its `serde` parse result (`none` for a malformed body). -/
structure HttpResponseModel where
  status_code : Nat
  body : Option OAuthProviderMetadata
deriving DecidableEq, Repr

/-- Embeds `OAuthProviderMetadata::discovery_response`
(`src/auth/oauth.rs` lines 67-96): non-200 status fails, a malformed
body fails, and an `issuer` field not string-equal to the configured
issuer URL fails with `Validation`; otherwise the metadata is
returned. -/
def discovery_response (issuer_url : String) (resp : HttpResponseModel) :
    Except DiscoveryError OAuthProviderMetadata :=
  if resp.status_code ≠ 200 then
    .error (.Response resp.status_code "HTTP status code")
  else
    match resp.body with
    | none => .error .Parse
    | some m =>
      if m.issuer ≠ issuer_url then
        .error (.Validation "unexpected issuer URI")
      else .ok m

/-- Embeds `OAuthProviderMetadata::discover_async`
(`src/auth/oauth.rs` lines 37-54): `join_ok` is whether
`issuer_url.join(".well-known/oauth-authorization-server")` parses
(failure maps to `UrlParse`), `http` is the transport outcome of the
discovery request (failure maps to `Request`), and a response goes
through `discovery_response`. -/
def discover_async (issuer_url : String) (join_ok : Bool)
    (http : Except String HttpResponseModel) :
    Except DiscoveryError OAuthProviderMetadata :=
  if !join_ok then .error .UrlParse
  else
    match http with
    | .error e => .error (.Request e)
    | .ok resp => discovery_response issuer_url resp

/-- Whether a discovery result is an error. -/
def discoveryIsError (x : Except DiscoveryError OAuthProviderMetadata) : Bool :=
  match x with
  | .error _ => true
  | .ok _ => false

end Jrnl

namespace Jrnl

/-- C1: the claim states that after an `active: false` introspection
response, `resolve`/`introspect` yields `None` even when a stale cached
entry for the token exists. The code instead falls through to
`cache.get(token.secret()).cloned()` without evicting, so the stale
expired `AuthenticatedUser` (expiry 5 < now = 10) is returned: at this
concrete input the result is `some staleUser`, not `none`. -/
theorem introspect_inactive_returns_stale_cached_user :
    introspect 10 [("tok", staleUser)] "tok"
      (Except.ok ⟨false, none, none, none⟩)
      = .ok (some staleUser) [("tok", staleUser)] := by
  decide

/-- C6: the claim states `introspect` never panics on a well-formed
response, in particular on an active response carrying subject and
username but no expiry field. At exactly that input the source executes
`r.exp().unwrap()` on `None` and panics. -/
theorem introspect_panics_on_active_response_without_exp :
    introspect 10 [] "tok"
      (Except.ok ⟨true, some "alice", some "alice", none⟩)
      = .panic := by
  decide

/-- C7: cached-entry validity is the strict comparison `now < expiry`
(so at `now = expiry` the entry counts as expired), and whenever the
cached entry for the token is expired (`expiry ≤ now`) `introspect` does
not serve it from the cache-hit fast path but refreshes via the remote
introspection call. -/
theorem is_valid_strict_and_expired_entry_not_served_from_cache
    (now : Int) (u : AuthenticatedUser) (cache : Cache) (token : String)
    (net : Except String IntrospectionResponse) (d : AuthenticatedUser)
    (hlk : cache.lookup token = some d) (hexp : d.expiry ≤ now) :
    (u.is_valid now = true ↔ now < u.expiry)
      ∧ u.is_valid u.expiry = false
      ∧ introspect now cache token net = introspectRemote cache token net := by
  refine ⟨by simp [AuthenticatedUser.is_valid], by simp [AuthenticatedUser.is_valid], ?_⟩
  unfold introspect
  rw [hlk]
  have hval : d.is_valid now = false := by
    simp [AuthenticatedUser.is_valid]
    omega
  simp [hval]

/-- Helper: after `HashMap::remove` semantics, no binding for the key
remains. -/
theorem lookup_pendingRemove (m : PendingMap) (s : String) :
    (pendingRemove m s).lookup s = none := by
  induction m with
  | nil => rfl
  | cons hd tl ih =>
    by_cases h : hd.fst = s
    · simpa [pendingRemove, List.filter_cons, h] using ih
    · have hne : (s == hd.fst) = false := by
        simp [beq_eq_false_iff_ne]
        exact fun he => h he.symm
      simpa [pendingRemove, List.filter_cons, bne, h, List.lookup, hne] using ih

/-- Helper: every branch of `authenticate` returns the pending map with
the session removed — removal happens first, unconditionally. -/
theorem authenticate_pending_eq (cfg : AuthConfig) (env : AuthEnv)
    (pending : PendingMap) (session code csrf_state : String) :
    (authenticate cfg env pending session code csrf_state).pending
      = pendingRemove pending session := by
  unfold authenticate
  repeat' split
  all_goals rfl

/-- Helper: an absent session id makes `authenticate` fail immediately,
with no exchange attempted. -/
theorem authenticate_absent_session (cfg : AuthConfig) (env : AuthEnv)
    (pending : PendingMap) (session code csrf_state : String)
    (h : pending.lookup session = none) :
    authenticate cfg env pending session code csrf_state
      = ⟨none, pendingRemove pending session, false⟩ := by
  unfold authenticate
  rw [h]

/-- C2: when the pending entry for the session exists but the returned
CSRF token differs from the stored one, `authenticate` returns `None`
and the token-exchange request is never attempted: the CSRF comparison
happens strictly before the code exchange. -/
theorem authenticate_csrf_mismatch_no_exchange (cfg : AuthConfig)
    (env : AuthEnv) (pending : PendingMap)
    (session code csrf_state : String) (entry : PendingEntry)
    (hlk : pending.lookup session = some entry)
    (hne : csrf_state ≠ entry.csrf) :
    (authenticate cfg env pending session code csrf_state).result = none
      ∧ (authenticate cfg env pending session code csrf_state).exchange_attempted
          = false := by
  unfold authenticate
  rw [hlk]
  simp [hne]

/-- Witness for C2: session `s0` exists with stored CSRF `csrf0`, the
callback carries `bad`, and the call fails without an exchange. -/
theorem authenticate_csrf_mismatch_no_exchange_witness :
    pending0.lookup "s0" = some ⟨"csrf0", "nonce0", "pkce0"⟩
      ∧ ("bad" : String) ≠ (PendingEntry.mk "csrf0" "nonce0" "pkce0").csrf
      ∧ ((authenticate cfg0 envOk pending0 "s0" "code" "bad").result = none
          ∧ (authenticate cfg0 envOk pending0 "s0" "code" "bad").exchange_attempted
              = false) :=
  ⟨by decide, by decide,
    authenticate_csrf_mismatch_no_exchange cfg0 envOk pending0 "s0" "code" "bad"
      ⟨"csrf0", "nonce0", "pkce0"⟩ (by decide) (by decide)⟩

/-- Helper: the hash-binding check succeeds exactly when either no
access-token-hash claim is present, or the signing algorithm is
retrievable and recomputing the hash of the issued access token yields
exactly the claimed hash. -/
theorem hashBindingOk_iff (env : AuthEnv) (idToken accessToken : String)
    (idClaims : IdClaims) :
    hashBindingOk env idToken accessToken idClaims = true
      ↔ ∀ expectedHash, idClaims.access_token_hash = some expectedHash →
          ∃ alg, env.signing_alg idToken = .ok alg
            ∧ env.hash_access_token accessToken alg = .ok expectedHash := by
  unfold hashBindingOk
  cases hh : idClaims.access_token_hash with
  | none => simp
  | some expected =>
    cases hs : env.signing_alg idToken with
    | error e => simp
    | ok alg =>
      cases hha : env.hash_access_token accessToken alg with
      | error e => simp [hha]
      | ok actual =>
        simp only [hha, beq_iff_eq]
        constructor
        · intro h eh heq
          obtain rfl : expected = actual := h
          obtain rfl : eh = expected := by
            injection heq with h2
            exact h2.symm
          exact ⟨alg, rfl, hha⟩
        · intro h
          obtain ⟨alg1, ha, h2⟩ := h expected rfl
          injection ha with ha2
          subst ha2
          rw [hha] at h2
          injection h2 with h3
          exact h3.symm

/-- C3: `authenticate` returns `Some` exactly when every condition of
the login contract holds — pending session present, CSRF match,
successful code exchange, ID token present and verified, hash binding
(when the claim is present) matches, user-info request built and
fetched, and every required group present; so violating any single
condition alone yields `None`. -/
theorem authenticate_some_iff_spec (cfg : AuthConfig) (env : AuthEnv)
    (pending : PendingMap) (session code csrf_state : String) :
    (authenticate cfg env pending session code csrf_state).result.isSome = true
      ↔ complete_login_spec cfg env pending session code csrf_state := by
  unfold authenticate complete_login_spec
  split
  next hlk => simp [hlk]
  next entry hlk =>
    split
    next hcs => simp [hlk, hcs]
    next hcs =>
      have hcsrf : csrf_state = entry.csrf := not_not.mp hcs
      split
      next e hx => simp [hlk, hx]
      next tokens hx =>
        split
        next hid => simp [hlk, hx, hid]
        next idToken hid =>
          split
          next e hcl => simp [hlk, hx, hid, hcl]
          next idClaims hcl =>
            split
            next hhb =>
              have hhb' : hashBindingOk env idToken tokens.access_token idClaims
                  = false := by simpa using hhb
              simp only [Option.isSome_none, Bool.false_eq_true, false_iff]
              rintro ⟨e1, t1, i1, c1, r1, u1, he, -, hx1, hi1, hc1, hhash, -, -, -⟩
              rw [hlk] at he
              cases he
              rw [hx] at hx1
              cases hx1
              rw [hid] at hi1
              cases hi1
              rw [hcl] at hc1
              cases hc1
              rw [(hashBindingOk_iff env idToken tokens.access_token
                idClaims).mpr hhash] at hhb'
              cases hhb'
            next hhb =>
              have hhb' : hashBindingOk env idToken tokens.access_token idClaims
                  = true := by simpa using hhb
              split
              next e hui => simp [hlk, hx, hid, hcl, hui]
              next req hui =>
                split
                next e hfetch => simp [hlk, hx, hid, hcl, hui, hfetch]
                next userInfo hfetch =>
                  split
                  next g hfind =>
                    simp only [Option.isSome_none, Bool.false_eq_true, false_iff]
                    rintro ⟨e1, t1, i1, c1, r1, u1, he, -, hx1, hi1, hc1, -,
                      hu1, hf1, hgroups⟩
                    rw [hlk] at he
                    cases he
                    rw [hx] at hx1
                    cases hx1
                    rw [hid] at hi1
                    cases hi1
                    rw [hcl] at hc1
                    cases hc1
                    rw [hui] at hu1
                    cases hu1
                    rw [hfetch] at hf1
                    cases hf1
                    have hmem : g ∈ cfg.required_groups :=
                      List.mem_of_find?_eq_some hfind
                    have hpg := List.find?_some hfind
                    have : g ∈ userInfo.groups := hgroups g hmem
                    simp [this] at hpg
                  next hfind =>
                    simp only [Option.isSome_some, true_iff]
                    refine ⟨entry, tokens, idToken, idClaims, req, userInfo,
                      hlk, hcsrf, hx, hid, hcl,
                      (hashBindingOk_iff env idToken tokens.access_token
                        idClaims).mp hhb', hui, hfetch, ?_⟩
                    intro g hg
                    have h3 := List.find?_eq_none.mp hfind g hg
                    simpa using h3

/-- C4: a pending-session id is single-use. The first `authenticate`
call removes the entry unconditionally (whatever its outcome), so the
map it leaves behind has no binding for the id, and a second call with
the same id — any configuration, environment, code and CSRF arguments —
finds no entry, fails with `None`, and attempts no exchange. -/
theorem authenticate_session_single_use (cfg cfg2 : AuthConfig)
    (env env2 : AuthEnv) (pending : PendingMap)
    (session code csrf_state code2 csrf2 : String) :
    (authenticate cfg env pending session code csrf_state).pending.lookup session
        = none
      ∧ (authenticate cfg2 env2
          (authenticate cfg env pending session code csrf_state).pending
          session code2 csrf2).result = none
      ∧ (authenticate cfg2 env2
          (authenticate cfg env pending session code csrf_state).pending
          session code2 csrf2).exchange_attempted = false := by
  have h1 : (authenticate cfg env pending session code csrf_state).pending.lookup
      session = none := by
    rw [authenticate_pending_eq]
    exact lookup_pendingRemove pending session
  refine ⟨h1, ?_, ?_⟩ <;>
    rw [authenticate_absent_session cfg2 env2 _ session code2 csrf2 h1]

/-- Witness for C7 at a concrete input: cache holds `staleUser` for
token `tok` with expiry 5 and `now = 5` (the boundary), so the fast path
is skipped and the call goes remote. -/
theorem is_valid_strict_witness :
    ([("tok", staleUser)] : Cache).lookup "tok" = some staleUser
      ∧ staleUser.expiry ≤ 5
      ∧ ((staleUser.is_valid 5 = true ↔ (5 : Int) < staleUser.expiry)
          ∧ staleUser.is_valid staleUser.expiry = false
          ∧ introspect 5 [("tok", staleUser)] "tok" (Except.error "down")
              = introspectRemote [("tok", staleUser)] "tok" (Except.error "down")) :=
  ⟨by decide, by decide,
    is_valid_strict_and_expired_entry_not_served_from_cache 5 staleUser
      [("tok", staleUser)] "tok" (Except.error "down") staleUser
      (by decide) (by decide)⟩

/-- C8: cookie serialization of `AuthState` round-trips: encoding
`Authenticated(token)` and decoding yields `Authenticated` with the same
token secret, and encoding `Unauthenticated` and decoding yields
`Unauthenticated`. -/
theorem authState_cookie_roundtrip (t : String) :
    deserializeAuthState (serializeAuthState (.Authenticated t))
        = some (.Authenticated t)
      ∧ deserializeAuthState (serializeAuthState .Unauthenticated)
        = some .Unauthenticated :=
  ⟨rfl, rfl⟩

/-- C9: decoding the auth cookie never errors: `from_jar` always yields
one of the three states, an absent cookie yields `Unauthenticated`,
unparseable content yields `Unauthenticated`, and any JSON the codec
does not recognize yields `Unauthenticated`. -/
theorem from_jar_total_and_fail_closed :
    (∀ jar : Jar, AuthState.from_jar jar = .Unauthenticated
        ∨ (∃ s, AuthState.from_jar jar = .Pending s)
        ∨ (∃ t, AuthState.from_jar jar = .Authenticated t))
      ∧ (∀ jar : Jar, jarGet jar authCookieName = none →
          AuthState.from_jar jar = .Unauthenticated)
      ∧ (∀ (jar : Jar) (c : Cookie), jarGet jar authCookieName = some c →
          c.value = none → AuthState.from_jar jar = .Unauthenticated)
      ∧ (∀ (jar : Jar) (c : Cookie) (j : Json),
          jarGet jar authCookieName = some c → c.value = some j →
          deserializeAuthState j = none →
          AuthState.from_jar jar = .Unauthenticated) := by
  refine ⟨?_, ?_, ?_, ?_⟩
  · intro jar
    cases h : AuthState.from_jar jar with
    | Pending s => exact Or.inr (Or.inl ⟨s, rfl⟩)
    | Authenticated t => exact Or.inr (Or.inr ⟨t, rfl⟩)
    | Unauthenticated => exact Or.inl rfl
  · intro jar h
    unfold AuthState.from_jar
    rw [h]
    rfl
  · intro jar c h hv
    unfold AuthState.from_jar
    rw [h]
    simp [authStateFromCookie, hv]
  · intro jar c j h hv hj
    unfold AuthState.from_jar
    rw [h]
    simp [authStateFromCookie, hv, hj]

/-- Witness for C9 at a concrete input: a jar whose auth cookie holds
the bare JSON number 5, which the codec rejects, decodes to
`Unauthenticated`. -/
theorem from_jar_total_and_fail_closed_witness :
    jarGet jarBad authCookieName = some badCookie
      ∧ badCookie.value = some (Json.num 5)
      ∧ deserializeAuthState (Json.num 5) = none
      ∧ AuthState.from_jar jarBad = .Unauthenticated :=
  ⟨by decide, by decide, by decide,
    from_jar_total_and_fail_closed.2.2.2 jarBad badCookie (Json.num 5)
      (by decide) (by decide) (by decide)⟩

/-- C5 counterexample: at this failing callback (session `s0` pending,
code exchange refused by the provider) the handler returns the incoming
jar unchanged and redirects to `./failed` — the outgoing jar contains no
cookie holding the `Unauthenticated` encoding and no cookie with zero
max-age, so no zero-lifetime `Unauthenticated` auth cookie is emitted,
contrary to the claim. -/
theorem callback_failure_emits_no_unauthenticated_cookie :
    (callback cfg0 envFail pending0 jar0 "code" "csrf0").jar = jar0
      ∧ (callback cfg0 envFail pending0 jar0 "code" "csrf0").redirect
          = "./failed"
      ∧ ((callback cfg0 envFail pending0 jar0 "code" "csrf0").jar.all
          (fun c => !(c.value == some (serializeAuthState .Unauthenticated))
            && !(c.max_age == 0))) = true := by
  refine ⟨?_, ?_, ?_⟩ <;> decide

/-- C5 as amended: on every callback whose authentication fails (the
incoming state is not `Pending`, or `authenticate` returns `None`), the
handler leaves the cookie jar unchanged — it emits no cookie at all —
and redirects to `./failed`; the `Unauthenticated` state does carry a
zero validity period, but the failure path never writes it. -/
theorem callback_failure_leaves_jar_unchanged (cfg : AuthConfig)
    (env : AuthEnv) (pending : PendingMap) (jar : Jar)
    (code state : String)
    (hfail : ∀ s, AuthState.from_jar jar = .Pending s →
      (authenticate cfg env pending s code state).result = none) :
    ((callback cfg env pending jar code state).jar = jar
        ∧ (callback cfg env pending jar code state).redirect = "./failed")
      ∧ AuthState.validity_period .Unauthenticated = 0 := by
  unfold callback
  split
  next s hst =>
    rw [hfail s hst]
    exact ⟨⟨rfl, rfl⟩, rfl⟩
  next hst => exact ⟨⟨rfl, rfl⟩, rfl⟩

/-- Witness for the amended C5 at a concrete input: with the provider
refusing the code exchange, the callback for pending session `s0`
returns the jar unchanged and redirects to `./failed`. -/
theorem callback_failure_leaves_jar_unchanged_witness :
    (∀ s, AuthState.from_jar jar0 = .Pending s →
        (authenticate cfg0 envFail pending0 s "code" "csrf0").result = none)
      ∧ (((callback cfg0 envFail pending0 jar0 "code" "csrf0").jar = jar0
          ∧ (callback cfg0 envFail pending0 jar0 "code" "csrf0").redirect
              = "./failed")
        ∧ AuthState.validity_period .Unauthenticated = 0) := by
  have hfail : ∀ s, AuthState.from_jar jar0 = .Pending s →
      (authenticate cfg0 envFail pending0 s "code" "csrf0").result = none := by
    intro s hs
    have h0 : AuthState.from_jar jar0 = AuthState.Pending "s0" := by decide
    rw [h0] at hs
    injection hs with h1
    subst h1
    decide
  exact ⟨hfail,
    callback_failure_leaves_jar_unchanged cfg0 envFail pending0 jar0
      "code" "csrf0" hfail⟩

/-- C10: discovery fails exactly when the discovery URL fails to parse,
transport fails, the response status is not 200, the body is malformed,
or the issuer inside the document is not string-equal to the configured
issuer URL; and on an issuer mismatch in particular the result is a
`Validation` error, never a metadata value. -/
theorem discover_async_error_iff (issuer_url : String) (join_ok : Bool)
    (http : Except String HttpResponseModel) :
    (discoveryIsError (discover_async issuer_url join_ok http) = true
        ↔ (join_ok = false
            ∨ (∃ e, http = .error e)
            ∨ (∃ resp, http = .ok resp
                ∧ (resp.status_code ≠ 200
                    ∨ resp.body = none
                    ∨ ∃ m, resp.body = some m ∧ m.issuer ≠ issuer_url))))
      ∧ (∀ resp m, join_ok = true → http = .ok resp →
          resp.status_code = 200 → resp.body = some m →
          m.issuer ≠ issuer_url →
          discover_async issuer_url join_ok http
            = .error (.Validation "unexpected issuer URI")) := by
  constructor
  · cases join_ok with
    | false => simp [discover_async, discoveryIsError]
    | true =>
      cases http with
      | error e => simp [discover_async, discoveryIsError]
      | ok resp =>
        by_cases hs : resp.status_code = 200
        · cases hb : resp.body with
          | none =>
            simp [discover_async, discovery_response, discoveryIsError, hs, hb]
          | some m =>
            by_cases hiss : m.issuer = issuer_url
            · simp [discover_async, discovery_response, discoveryIsError,
                hs, hb, hiss]
            · simp [discover_async, discovery_response, discoveryIsError,
                hs, hb, hiss]
        · simp [discover_async, discovery_response, discoveryIsError, hs]
  · intro resp m hj hh hs hb hiss
    subst hj
    subst hh
    simp [discover_async, discovery_response, hs, hb, hiss]

/-- Witness for C10 at a concrete input: a well-formed 200 response
whose document names a different issuer is rejected with a `Validation`
error. -/
theorem discover_async_error_iff_witness :
    ((⟨200, some ⟨"https://other/", "i", "r"⟩⟩ : HttpResponseModel).status_code
        = 200)
      ∧ (⟨200, some ⟨"https://other/", "i", "r"⟩⟩ : HttpResponseModel).body
          = some ⟨"https://other/", "i", "r"⟩
      ∧ ("https://other/" : String) ≠ "https://issuer/"
      ∧ discover_async "https://issuer/" true
          (.ok ⟨200, some ⟨"https://other/", "i", "r"⟩⟩)
          = .error (.Validation "unexpected issuer URI") :=
  ⟨by decide, by decide, by decide,
    (discover_async_error_iff "https://issuer/" true
        (.ok ⟨200, some ⟨"https://other/", "i", "r"⟩⟩)).2
      ⟨200, some ⟨"https://other/", "i", "r"⟩⟩ ⟨"https://other/", "i", "r"⟩
      rfl rfl (by decide) (by decide) (by decide)⟩

end Jrnl
